import Mathlib

/-!
Verification development for the srm_automator repository.

The definitions below are a shallow embedding of the Python sources:

* src/utils/enums.py            — ProcessStatus, LogLevel
* src/core/exceptions.py        — SteamError, SRMError (plus builtin AttributeError)
* src/core/srm_runner.py        — SRMRunner.validate_path, SRMRunner.execute_command
* src/core/steam_manager.py     — SteamManager process enumeration, wait_for_closure,
                                  kill_processes, graceful_shutdown, find_steam_executable,
                                  start_steam
* src/ui/main_window.py         — SteamROMManagerGUI.automation_process, start_process
* src/config/constants.py       — Constants.STEAM_PROCESSES and friends

Effectful calls (filesystem probes, process enumeration, subprocess runs, polls of
is_running) are made explicit as environment parameters: each call site of an effect
receives its outcome from the environment.  Exceptions are modelled with Except.
-/

set_option autoImplicit false

namespace SRMAuto

/-- Process execution status, from src/utils/enums.py (class ProcessStatus). -/
inductive ProcessStatus
  | ready
  | running
  | success
  | failed
  | cancelled
deriving DecidableEq, Repr

/-- Log message levels, from src/utils/enums.py (class LogLevel). -/
inductive LogLevel
  | info
  | success
  | warning
  | error
deriving DecidableEq, Repr

/-- Python exceptions that can cross component boundaries in this program:
the two custom classes of src/core/exceptions.py that the orchestrator catches by
name, the builtin AttributeError (raised when a missing class attribute is read),
and a catch-all for any other exception derived from Exception. -/
inductive PyExc
  | steamError (msg : String)
  | srmError (msg : String)
  | attributeError (msg : String)
  | otherExc (msg : String)
deriving DecidableEq, Repr

/-- Whether an Except value is an error (a raised exception). -/
def isExc {α : Type} : Except PyExc α → Bool
  | .error _ => true
  | .ok _ => false

/-- Python truthiness of an optional string: None and the empty string are falsy. -/
def truthy : Option String → Bool
  | none => false
  | some s => !(s == "")

/-- Python str.lower() restricted to ASCII, character by character (the names and
paths this program compares are ASCII). -/
def lowerStr (s : String) : String := ⟨s.data.map Char.toLower⟩

/-- Python str.endswith(suff) as a suffix test on the character lists. -/
def endsWithStr (s suff : String) : Bool := List.isSuffixOf suff.data s.data

/-! ## External Tool Invoker — src/core/srm_runner.py -/

/-- Outcome of the filesystem probes made by SRMRunner.validate_path on the
configured path: whether the path exists, whether it is a regular file, and
whether one of the probes raised OSError or ValueError (caught at line 48). -/
structure PathProps where
  pathExists : Bool
  isFile : Bool
  osError : Option String
deriving DecidableEq, Repr

/-- The fields of SRMRunner set in its constructor (src/core/srm_runner.py lines 19-22). -/
structure SRMRunner where
  srm_path : String
  timeout : Nat
deriving DecidableEq, Repr

/-- SRMRunner.validate_path (src/core/srm_runner.py lines 24-49).
The line 30 check `if not self.srm_path` is dead code in the source: srm_path is a
pathlib.Path, and Path objects are always truthy, so the branch is never taken and
is not modelled.  isWindows models sys.platform.startswith at line 43. -/
def validate_path (r : SRMRunner) (fs : PathProps) (isWindows : Bool) : Bool × String :=
  match fs.osError with
  | some e => (false, "Invalid path: " ++ e)
  | none =>
    if fs.pathExists = false then
      (false, "File does not exist")
    else if fs.isFile = false then
      (false, "Path is not a file")
    else if isWindows && !(endsWithStr (lowerStr r.srm_path) ".exe") then
      (false, "Must be an .exe file on Windows")
    else
      (true, "Valid executable")

/-- Outcome of the subprocess.run call in SRMRunner.execute_command: the process
completed within the timeout with an exit code and captured streams, or
subprocess.TimeoutExpired was raised, or process creation raised some other
exception whose text is msg. -/
inductive RunOutcome
  | completed (returncode : Int) (stdout stderr : String)
  | timedOut
  | spawnFailure (msg : String)
deriving DecidableEq, Repr

/-- Result of execute_command: the returned pair or the raised SRMError, plus
whether a child process was spawned at all. -/
structure ExecResult where
  result : Except PyExc (Bool × String)
  spawned : Bool
deriving Repr

/-- SRMRunner.execute_command (src/core/srm_runner.py lines 51-74).
Validation failure raises SRMError before subprocess.run is reached (spawned is
false); a completed run returns (returncode == 0, (stdout + stderr).strip());
TimeoutExpired is re-raised as an SRMError naming the timeout; any other
exception from process creation is re-raised as an SRMError. -/
def execute_command (r : SRMRunner) (fs : PathProps) (isWindows : Bool)
    (run : RunOutcome) (command : String) : ExecResult :=
  let v := validate_path r fs isWindows
  if v.1 = false then
    { result := .error (.srmError ("Steam ROM Manager validation failed: " ++ v.2)),
      spawned := false }
  else
    match run with
    | .completed rc out err =>
        { result := .ok (rc == 0, (out ++ err).trim), spawned := true }
    | .timedOut =>
        { result := .error (.srmError
            ("Steam ROM Manager timed out after " ++ toString r.timeout ++ "s")),
          spawned := true }
    | .spawnFailure e =>
        { result := .error (.srmError ("Failed to execute Steam ROM Manager: " ++ e)),
          spawned := false }

/-! ## Process Enumerator and Target Application Controller — src/core/steam_manager.py -/

/-- Constants.STEAM_PROCESSES from src/config/constants.py line 13. -/
def STEAM_PROCESSES : List String := ["steam.exe", "steamservice.exe", "steamwebhelper.exe"]

/-- The three psutil exceptions tolerated per process during enumeration
(psutil.NoSuchProcess, psutil.AccessDenied, psutil.ZombieProcess). -/
inductive PsErr
  | noSuchProcess
  | accessDenied
  | zombieProcess
deriving DecidableEq, Repr

/-- The info dict of one process yielded by psutil.process_iter: its name and
executable path, either of which psutil may report as None. -/
structure ProcInfo where
  name : Option String
  exe : Option String
deriving DecidableEq, Repr

/-- One snapshot of the OS process table: each entry either yields its info or
raises one of the tolerated psutil exceptions when inspected. -/
abbrev ProcTable := List (Except PsErr ProcInfo)

/-- SteamManager._get_steam_processes (src/core/steam_manager.py lines 22-32).
A per-process psutil exception is caught and the iteration continues.  A None
name makes the attribute access at line 27 raise AttributeError, which is not in
the caught tuple and so propagates out of the function. -/
def get_steam_processes : ProcTable → Except PyExc (List ProcInfo)
  | [] => .ok []
  | .error _ :: rest => get_steam_processes rest
  | .ok info :: rest =>
      match info.name with
      | none => .error (.attributeError "NoneType object has no attribute lower")
      | some n =>
          if (STEAM_PROCESSES.map lowerStr).contains (lowerStr n) then
            (get_steam_processes rest).map (fun l => info :: l)
          else
            get_steam_processes rest

/-- SteamManager.is_running (src/core/steam_manager.py lines 34-39): true when the
enumerator finds at least one match; any exception is swallowed and reported as
not running. -/
def is_running (procs : ProcTable) : Bool :=
  match get_steam_processes procs with
  | .ok l => decide (0 < l.length)
  | .error _ => false

/-- Outcome of one proc.terminate() or proc.kill() call in kill_processes:
delivered, a benign failure (NoSuchProcess or AccessDenied, which the loop
skips), or any other exception (which flips the overall success flag). -/
inductive TermOutcome
  | delivered
  | benign
  | unexpected
deriving DecidableEq, Repr

/-- Environment for SteamManager.kill_processes: the per-process signal outcomes
for the processes found in phase 1 (terminate) and for the processes still found
after the 1 second settle in phase 2 (kill). -/
structure KillEnv where
  phase1 : List TermOutcome
  phase2 : List TermOutcome
deriving Repr

/-- How many terminate and kill signals were attempted. -/
structure KillEffects where
  terminate_calls : Nat
  kill_calls : Nat
deriving DecidableEq, Repr

/-- SteamManager.kill_processes (src/core/steam_manager.py lines 41-73): if no
process is found the call returns true at once with no signal sent; otherwise
every found process is signalled in each phase and the result is false exactly
when some signal raised an unexpected exception. -/
def kill_processes (env : KillEnv) : Bool × KillEffects :=
  if env.phase1.isEmpty then
    (true, ⟨0, 0⟩)
  else
    (env.phase1.all (fun o => !(o == TermOutcome.unexpected)) &&
       env.phase2.all (fun o => !(o == TermOutcome.unexpected)),
     ⟨env.phase1.length, env.phase2.length⟩)

/-! ### wait_for_closure — src/core/steam_manager.py lines 75-89

The loop keeps rational time: total_waited starts at 0, the sleep interval starts
at 0.5 s and is updated to min(interval * 1.5, 3) after each sleep.  The poll at
iteration n reads the environment stream running n.  Fuel bounds the recursion;
wait_for_closure supplies fuel that provably never runs out. -/

/-- The while loop of wait_for_closure.  Returns none only on fuel exhaustion. -/
def waitLoop (running : Nat → Bool) (maxWait : ℚ) :
    ℚ → ℚ → Nat → Nat → Option (Bool × ℚ)
  | totalWaited, _, _, 0 =>
      if totalWaited < maxWait then none else some (false, totalWaited)
  | totalWaited, waitTime, n, Nat.succ fuel =>
      if totalWaited < maxWait then
        if running n = false then
          some (true, totalWaited)
        else
          waitLoop running maxWait (totalWaited + waitTime)
            (min (waitTime * (3/2)) 3) (n + 1) fuel
      else
        some (false, totalWaited)

/-- SteamManager.wait_for_closure with max_wait resolved (line 77 substitutes the
manager timeout when the argument is None or zero).  The fuel 2 * ceil(max) + 1
is enough because every iteration sleeps at least 0.5 s. -/
def wait_for_closure (running : Nat → Bool) (max_wait : ℚ) : Option (Bool × ℚ) :=
  waitLoop running max_wait 0 (1/2) 0 (2 * Nat.ceil max_wait + 1)

/-- The sleep interval used at iteration n of the wait loop. -/
def waitInterval : Nat → ℚ
  | 0 => 1/2
  | n + 1 => min (waitInterval n * (3/2)) 3

/-- The total time slept before the poll at iteration n. -/
def waitedBefore : Nat → ℚ
  | 0 => 0
  | n + 1 => waitedBefore n + waitInterval n

/-! ### Executable discovery, shutdown and relaunch -/

/-- The list read at src/core/steam_manager.py line 113.  The class Constants in
src/config/constants.py defines COMMON_STEAM_PATHS and COMMON_SRM_PATHS but no
attribute named COMMON_STEAM_EXECUTABLE_PATHS, so the attribute read raises
AttributeError before the loop body can run. -/
def commonSteamExecutablePaths : Except PyExc (List String) :=
  .error (.attributeError
    "type object Constants has no attribute COMMON_STEAM_EXECUTABLE_PATHS")

/-- The fallback loop of find_steam_executable (src/core/steam_manager.py lines
117-124): the try block wraps the whole for loop, so the first tolerated psutil
exception aborts the iteration, the except clause passes, and control falls
through to return None.  A falsy (None or empty) name fails the guard at line
120 and the loop continues; a matching name with a falsy exe also continues. -/
def steamExeFallback : ProcTable → Option String
  | [] => none
  | .error _ :: _ => none
  | .ok info :: rest =>
      if truthy info.name && (lowerStr (info.name.getD "") == "steam.exe") then
        match info.exe with
        | some e => if e == "" then steamExeFallback rest else some e
        | none => steamExeFallback rest
      else
        steamExeFallback rest

/-- Whether an info entry makes the fallback loop return (both guards truthy). -/
def returnsExe (i : ProcInfo) : Bool :=
  (truthy i.name && (lowerStr (i.name.getD "") == "steam.exe")) && truthy i.exe

/-- SteamManager.find_steam_executable (src/core/steam_manager.py lines 111-126):
probe the conventional install paths in order, else inspect running processes.
Reading the missing constant at line 113 raises before any probe happens;
fsExists models Path(exe_path).exists() in the (dead) probe loop. -/
def find_steam_executable (procs : ProcTable) (fsExists : String → Bool) :
    Except PyExc (Option String) :=
  match commonSteamExecutablePaths with
  | .error e => .error e
  | .ok paths =>
      match paths.find? fsExists with
      | some p => .ok (some p)
      | none => .ok (steamExeFallback procs)

/-- The mutable fields of SteamManager (src/core/steam_manager.py lines 17-20). -/
structure SteamManager where
  timeout : Nat
  was_running_before_shutdown : Bool
  steam_executable_path : Option String
deriving DecidableEq, Repr

/-- Environment for one graceful_shutdown call: the process-table snapshot read
by is_running at entry, the snapshot and filesystem seen by executable
discovery, the per-signal outcomes for kill_processes, and the poll stream seen
by wait_for_closure. -/
structure ShutdownEnv where
  procsAtEntry : ProcTable
  procsDiscovery : ProcTable
  fsExists : String → Bool
  killEnv : KillEnv
  runningAfterKill : Nat → Bool

/-- Result of graceful_shutdown: the returned pair or raised exception, the
manager state after the call, and the signals sent. -/
structure ShutdownResult where
  result : Except PyExc (Bool × String)
  state : SteamManager
  effects : KillEffects
deriving Repr

/-- SteamManager.graceful_shutdown (src/core/steam_manager.py lines 91-109).
When not running: record was_running_before_shutdown = false and return success
at once.  Otherwise record true, then evaluate find_steam_executable — which
raises AttributeError (missing constant), propagating out before the assignment
at line 99 completes, so kill_processes and wait_for_closure are never reached;
the remaining branches mirror the source lines 101-109 all the same. -/
def graceful_shutdown (m : SteamManager) (env : ShutdownEnv) : ShutdownResult :=
  if is_running env.procsAtEntry = false then
    { result := .ok (true, "Steam not running"),
      state := { m with was_running_before_shutdown := false },
      effects := ⟨0, 0⟩ }
  else
    let m1 := { m with was_running_before_shutdown := true }
    match find_steam_executable env.procsDiscovery env.fsExists with
    | .error e => { result := .error e, state := m1, effects := ⟨0, 0⟩ }
    | .ok exe =>
        let m2 := { m1 with steam_executable_path := exe }
        let kr := kill_processes env.killEnv
        if kr.1 = false then
          { result := .ok (false, "Failed to terminate Steam processes"),
            state := m2, effects := kr.2 }
        else
          match wait_for_closure env.runningAfterKill (m.timeout : ℚ) with
          | some (true, _) =>
              { result := .ok (true, "Steam closed successfully"),
                state := m2, effects := kr.2 }
          | _ =>
              { result := .ok (false,
                  "Steam still running after " ++ toString m.timeout ++ "s timeout"),
                state := m2, effects := kr.2 }

/-- Environment for one start_steam call: the filesystem probe, the outcome of
subprocess.Popen, the process table inspected by the discovery fallback, and the
snapshot read by is_running after the 2 second settle. -/
structure StartEnv where
  fsExists : String → Bool
  popen : Except String Unit
  procsDiscovery : ProcTable
  procsAfterStart : ProcTable

/-- SteamManager.start_steam (src/core/steam_manager.py lines 128-165): resolve
the path (argument, else recorded path, else fresh discovery — note the
discovery raises AttributeError today), fail when nothing resolves or the file
is missing, then launch, settle, and re-check is_running. -/
def start_steam (m : SteamManager) (env : StartEnv) (steam_path : Option String) :
    Except PyExc (Bool × String) :=
  let resolved : Except PyExc (Option String) :=
    if truthy steam_path then .ok steam_path
    else if truthy m.steam_executable_path then .ok m.steam_executable_path
    else find_steam_executable env.procsDiscovery env.fsExists
  match resolved with
  | .error e => .error e
  | .ok pathOpt =>
      if truthy pathOpt = false then
        .ok (false, "Steam executable not found")
      else
        let p := pathOpt.getD ""
        if env.fsExists p = false then
          .ok (false, "Steam executable not found at: " ++ p)
        else
          match env.popen with
          | .error e => .ok (false, "Failed to start Steam: " ++ e)
          | .ok _ =>
              if is_running env.procsAfterStart then
                .ok (true, "Steam started successfully")
              else
                .ok (false, "Steam process started but not detected as running")

/-! ## Orchestrator — src/ui/main_window.py -/

/-- One call to update_progress (src/ui/main_window.py lines 211-214). -/
structure ProgressUpdate where
  step : Nat
  percentage : Nat
  message : String
deriving DecidableEq, Repr

/-- Observable outcome of one automation_process execution: every
_update_status_indicator call in order, every update_progress call in order,
and whether SteamManager.start_steam was ever invoked (no call site exists
anywhere in src/ui/main_window.py, or in any other file of the repository). -/
structure RunResult where
  statusTrace : List ProcessStatus
  progress : List ProgressUpdate
  start_steam_invoked : Bool
deriving DecidableEq, Repr

/-- The update_progress argument of the two exception handlers at
src/ui/main_window.py lines 288-297: SteamError and SRMError get the first
message, any other exception the second. -/
def handlerProgressMsg : PyExc → String
  | .steamError _ => "Process failed - see log"
  | .srmError _ => "Process failed - see log"
  | _ => "Process failed - unexpected error"

/-- The body of SteamROMManagerGUI.automation_process (src/ui/main_window.py
lines 220-300) as a function of the outcomes of its three effectful steps: the
graceful_shutdown call at line 235 (its return value or raised exception), the
is_running verification at line 247, and the execute_command call at line 263.
Log lines are not tracked; status updates and progress updates are. -/
def automationCore (shutdown : Except PyExc (Bool × String)) (verifyRunning : Bool)
    (exec : Except PyExc (Bool × String)) : RunResult :=
  let p1 : List ProgressUpdate := [⟨1, 25, "Terminating Steam processes..."⟩]
  match shutdown with
  | .error e =>
      { statusTrace := [ProcessStatus.running, ProcessStatus.failed],
        progress := p1 ++ [⟨0, 0, handlerProgressMsg e⟩],
        start_steam_invoked := false }
  | .ok _ =>
      let p2 := p1 ++ [⟨2, 50, "Verifying Steam is closed..."⟩]
      if verifyRunning then
        { statusTrace := [ProcessStatus.running, ProcessStatus.failed],
          progress := p2 ++ [⟨0, 0, "Failed - Steam still running"⟩],
          start_steam_invoked := false }
      else
        let p3 := p2 ++ [⟨3, 75, "Running Steam ROM Manager..."⟩]
        match exec with
        | .error e =>
            { statusTrace := [ProcessStatus.running, ProcessStatus.failed],
              progress := p3 ++ [⟨0, 0, handlerProgressMsg e⟩],
              start_steam_invoked := false }
        | .ok (srmSuccess, _) =>
            if srmSuccess then
              { statusTrace := [ProcessStatus.running, ProcessStatus.success],
                progress := p3 ++ [⟨4, 100, "Process completed successfully!"⟩],
                start_steam_invoked := false }
            else
              { statusTrace := [ProcessStatus.running, ProcessStatus.failed],
                progress := p3 ++ [⟨4, 0, "Process failed - see log for details"⟩],
                start_steam_invoked := false }

/-- The settings record field relevant to the relaunch claims
(src/config/app_config.py): restart_steam_after_completion is persisted and
edited in the settings dialog, but never read by src/ui/main_window.py. -/
structure AppConfig where
  restart_steam_after_completion : Bool
deriving DecidableEq, Repr

/-- Environment for one automation_process run: the shutdown environment, the
process-table snapshot read by the verification is_running at line 247, and the
filesystem, platform and subprocess outcome seen by execute_command. -/
structure RunEnv where
  shutdownEnv : ShutdownEnv
  procsAtVerify : ProcTable
  srmFs : PathProps
  isWindows : Bool
  srmRun : RunOutcome

/-- SteamROMManagerGUI.automation_process wired to the concrete component
models.  The cfg parameter carries restart_steam_after_completion, which the
source never consults during a run.  Returns the observable run result and the
SteamManager state after the shutdown step. -/
def automation_process (cfg : AppConfig) (m : SteamManager) (r : SRMRunner)
    (env : RunEnv) : RunResult × SteamManager :=
  let _ := cfg
  let sd := graceful_shutdown m env.shutdownEnv
  let ex := (execute_command r env.srmFs env.isWindows env.srmRun "add").result
  (automationCore sd.result (is_running env.procsAtVerify) ex, sd.state)

/-- The fields of SteamROMManagerGUI consulted by start_process
(src/ui/main_window.py lines 301-320). -/
structure GUIState where
  status : ProcessStatus
  process_count : Nat
  srm_runner_configured : Bool
deriving DecidableEq, Repr

/-- SteamROMManagerGUI.start_process (src/ui/main_window.py lines 301-320): a
request while status is RUNNING returns at once; a missing runner logs and opens
settings without starting; otherwise the counter increments and the automation
thread is started.  The second component is true exactly when a new automation
execution was launched. -/
def start_process (g : GUIState) : GUIState × Bool :=
  if g.status = ProcessStatus.running then
    (g, false)
  else if g.srm_runner_configured = false then
    (g, false)
  else
    ({ g with process_count := g.process_count + 1 }, true)

/-- The (step, percentage) pairs of the update_progress calls of a run. -/
def progressPairs (r : RunResult) : List (Nat × Nat) :=
  r.progress.map (fun u => (u.step, u.percentage))

/-- A run environment in which Steam is observed running at the shutdown step,
the tool path is a valid executable, and the tool would exit 0: together with a
configuration that enables restart_steam_after_completion, this is the scenario
in which the specification promises a Success ending followed by a relaunch. -/
def failingRunEnv : RunEnv :=
  { shutdownEnv :=
      { procsAtEntry := [Except.ok ⟨some "steam.exe", some "C:\\Steam\\steam.exe"⟩],
        procsDiscovery := [Except.ok ⟨some "steam.exe", some "C:\\Steam\\steam.exe"⟩],
        fsExists := fun _ => false,
        killEnv := ⟨[TermOutcome.delivered], []⟩,
        runningAfterKill := fun _ => false },
    procsAtVerify := [],
    srmFs := ⟨true, true, none⟩,
    isWindows := true,
    srmRun := RunOutcome.completed 0 "42 games added" "" }

/-! ## Theorems -/

/-- C4: a graceful_shutdown call in a state where is_running() returns false
returns success immediately with the message "Steam not running", sends no
termination signal (zero terminate and kill calls), records
was_running_before_shutdown = false, and leaves steam_executable_path (and the
timeout) unchanged — the result record below keeps every field of m except
was_running_before_shutdown. -/
theorem graceful_shutdown_not_running (m : SteamManager) (env : ShutdownEnv)
    (h : is_running env.procsAtEntry = false) :
    graceful_shutdown m env =
      { result := .ok (true, "Steam not running"),
        state := { m with was_running_before_shutdown := false },
        effects := ⟨0, 0⟩ } := by
  simp [graceful_shutdown, h]

/-- Witness for graceful_shutdown_not_running at a concrete manager and an empty
process table. -/
theorem graceful_shutdown_not_running_witness :
    is_running ([] : ProcTable) = false ∧
    graceful_shutdown ⟨30, false, none⟩
        ⟨[], [], fun _ => false, ⟨[], []⟩, fun _ => false⟩ =
      { result := .ok (true, "Steam not running"),
        state := ⟨30, false, none⟩,
        effects := ⟨0, 0⟩ } :=
  ⟨rfl, graceful_shutdown_not_running _ _ rfl⟩

/-- C6: when the subprocess completes within the timeout, execute_command
returns normally with success flag (returncode == 0) — which is true exactly
when the exit code is zero — and output (stdout ++ stderr).trim, regardless of
the exit code. -/
theorem execute_command_completed_spec (r : SRMRunner) (fs : PathProps)
    (isWindows : Bool) (rc : Int) (out err : String)
    (hv : (validate_path r fs isWindows).1 = true) :
    (execute_command r fs isWindows (.completed rc out err) "add").result =
      .ok (rc == 0, (out ++ err).trim) ∧ ((rc == 0) = true ↔ rc = 0) := by
  constructor
  · simp only [execute_command, hv]
    simp
  · simp

/-- Witness for execute_command_completed_spec: a valid path, exit code 0, and
output on both streams. -/
theorem execute_command_completed_spec_witness :
    (validate_path ⟨"C:\\tools\\srm.exe", 120⟩ ⟨true, true, none⟩ true).1 = true ∧
    ((execute_command ⟨"C:\\tools\\srm.exe", 120⟩ ⟨true, true, none⟩ true
        (.completed 0 " 42 games added " "") "add").result =
      .ok ((0 : Int) == 0, (" 42 games added " ++ "").trim) ∧
      (((0 : Int) == 0) = true ↔ (0 : Int) = 0)) :=
  ⟨by decide, execute_command_completed_spec _ _ _ _ _ _ (by decide)⟩

/-- C7: validate_path rejects a missing path, an existing path that is not a
regular file, and (on Windows) a file without the .exe extension, each with its
own reason string; the three reason strings are pairwise distinct; and it
accepts an existing regular file whose extension is acceptable on the host
platform. -/
theorem validate_path_spec (r : SRMRunner) (fs : PathProps) (isWindows : Bool)
    (hno : fs.osError = none) :
    (fs.pathExists = false →
        validate_path r fs isWindows = (false, "File does not exist")) ∧
    (fs.pathExists = true → fs.isFile = false →
        validate_path r fs isWindows = (false, "Path is not a file")) ∧
    (isWindows = true → fs.pathExists = true → fs.isFile = true →
        endsWithStr (lowerStr r.srm_path) ".exe" = false →
        validate_path r fs isWindows = (false, "Must be an .exe file on Windows")) ∧
    (("File does not exist" : String) ≠ "Path is not a file" ∧
      ("File does not exist" : String) ≠ "Must be an .exe file on Windows" ∧
      ("Path is not a file" : String) ≠ "Must be an .exe file on Windows") ∧
    (fs.pathExists = true → fs.isFile = true →
        (isWindows = true → endsWithStr (lowerStr r.srm_path) ".exe" = true) →
        (validate_path r fs isWindows).1 = true) := by
  refine ⟨?_, ?_, ?_, ⟨by decide, by decide, by decide⟩, ?_⟩
  · intro h1
    simp [validate_path, hno, h1]
  · intro h1 h2
    simp [validate_path, hno, h1, h2]
  · intro hw h1 h2 h3
    simp [validate_path, hno, h1, h2, hw, h3]
  · intro h1 h2 h3
    cases isWindows with
    | false => simp [validate_path, hno, h1, h2]
    | true => simp [validate_path, hno, h1, h2, h3 rfl]

/-- Witness for validate_path_spec: a missing file is rejected with the first
reason string. -/
theorem validate_path_spec_witness :
    validate_path ⟨"srm.exe", 120⟩ ⟨false, false, none⟩ true =
      (false, "File does not exist") :=
  (validate_path_spec ⟨"srm.exe", 120⟩ ⟨false, false, none⟩ true rfl).1 rfl

/-- C8: a start-run request while the status is Running is refused:
start_process returns the state unchanged (same status, same run counter) and
launches no automation execution. -/
theorem start_process_guard (g : GUIState) (h : g.status = ProcessStatus.running) :
    start_process g = (g, false) := by
  simp [start_process, h]

/-- Witness for start_process_guard at a concrete running state. -/
theorem start_process_guard_witness :
    (⟨ProcessStatus.running, 3, true⟩ : GUIState).status = ProcessStatus.running ∧
    start_process ⟨ProcessStatus.running, 3, true⟩ =
      (⟨ProcessStatus.running, 3, true⟩, false) :=
  ⟨rfl, start_process_guard _ rfl⟩

/-- C9: whatever the three effectful steps return or raise — including an
arbitrary exception from the shutdown step or the tool step — the run body
always ends with a final status of Success or Failed; it never leaves the
status at Running. -/
theorem automation_terminal_status (shutdown : Except PyExc (Bool × String))
    (verifyRunning : Bool) (exec : Except PyExc (Bool × String)) :
    (automationCore shutdown verifyRunning exec).statusTrace.getLast? =
        some ProcessStatus.success ∨
    (automationCore shutdown verifyRunning exec).statusTrace.getLast? =
        some ProcessStatus.failed := by
  rcases shutdown with e | v
  · right; rfl
  · cases verifyRunning with
    | true => right; rfl
    | false =>
        rcases exec with e2 | p
        · right; rfl
        · rcases p with ⟨b, s⟩
          cases b with
          | true => left; rfl
          | false => right; rfl

/-- C2 counterexample: in the run where the shutdown step reports Steam not
running, verification finds Steam closed, and the tool returns success = false,
the run ends Failed but the last progress update is step 4 (percentage 0), not
step 0 — refuting the claim that the step reported on failure is never greater
than 0. -/
theorem failure_step_four_cex :
    (automationCore (.ok (true, "Steam not running")) false
        (.ok (false, "SRM reported failure"))).statusTrace.getLast? =
      some ProcessStatus.failed ∧
    ∃ u : ProgressUpdate,
      (automationCore (.ok (true, "Steam not running")) false
          (.ok (false, "SRM reported failure"))).progress.getLast? = some u ∧
      0 < u.step ∧ u.step = 4 ∧ u.percentage = 0 :=
  ⟨rfl, ⟨⟨4, 0, "Process failed - see log for details"⟩, rfl, by decide, rfl, rfl⟩⟩

/-- C2 amended: within one run the progress steps advance monotonically through
1, 2, 3, 4; a successful run emits exactly (1,25), (2,50), (3,75), (4,100); a
failed run emits a prefix of (1,25), (2,50), (3,75) followed by one final
update with percentage 0 whose step is 0 — except when the tool itself returned
failure, where the final update is step 4 with percentage 0. -/
theorem progress_steps_amended (shutdown : Except PyExc (Bool × String))
    (verifyRunning : Bool) (exec : Except PyExc (Bool × String)) :
    ((automationCore shutdown verifyRunning exec).statusTrace.getLast? =
        some ProcessStatus.success →
      progressPairs (automationCore shutdown verifyRunning exec) =
        [(1, 25), (2, 50), (3, 75), (4, 100)]) ∧
    ((automationCore shutdown verifyRunning exec).statusTrace.getLast? =
        some ProcessStatus.failed →
      ∃ (k : Nat) (u : Nat × Nat),
        progressPairs (automationCore shutdown verifyRunning exec) =
          ([(1, 25), (2, 50), (3, 75)].take k) ++ [u] ∧
        u.2 = 0 ∧ (u.1 = 0 ∨ (u.1 = 4 ∧ k = 3))) := by
  rcases shutdown with e | v
  · exact ⟨fun h => (nomatch h), fun _ => ⟨1, (0, 0), rfl, rfl, Or.inl rfl⟩⟩
  · cases verifyRunning with
    | true =>
        exact ⟨fun h => (nomatch h), fun _ => ⟨2, (0, 0), rfl, rfl, Or.inl rfl⟩⟩
    | false =>
        rcases exec with e2 | p
        · exact ⟨fun h => (nomatch h), fun _ => ⟨3, (0, 0), rfl, rfl, Or.inl rfl⟩⟩
        · rcases p with ⟨b, s⟩
          cases b with
          | true => exact ⟨fun _ => rfl, fun h => (nomatch h)⟩
          | false =>
              exact ⟨fun h => (nomatch h),
                fun _ => ⟨3, (4, 0), rfl, rfl, Or.inr ⟨rfl, rfl⟩⟩⟩

/-- Witness for progress_steps_amended: the successful run emits the full
monotone progress sequence. -/
theorem progress_steps_amended_witness :
    progressPairs (automationCore (.ok (true, "Steam not running")) false
        (.ok (true, "42 games added"))) = [(1, 25), (2, 50), (3, 75), (4, 100)] :=
  (progress_steps_amended (.ok (true, "Steam not running")) false
    (.ok (true, "42 games added"))).1 rfl

/-- C5: execute_command raises an SRMError exactly when path validation fails,
or the subprocess timed out, or process creation itself failed; when validation
fails no process is spawned; and the timeout error carries a message containing
the configured timeout value. -/
theorem execute_command_error_spec (r : SRMRunner) (fs : PathProps)
    (isWindows : Bool) (run : RunOutcome) :
    (isExc (execute_command r fs isWindows run "add").result = true ↔
      ((validate_path r fs isWindows).1 = false ∨ run = RunOutcome.timedOut ∨
        ∃ msg, run = RunOutcome.spawnFailure msg)) ∧
    ((validate_path r fs isWindows).1 = false →
      (execute_command r fs isWindows run "add").spawned = false) ∧
    ((validate_path r fs isWindows).1 = true → run = RunOutcome.timedOut →
      ∃ pre post, (execute_command r fs isWindows run "add").result =
        .error (.srmError (pre ++ toString r.timeout ++ post))) := by
  cases hval : (validate_path r fs isWindows).1 with
  | false =>
      refine ⟨?_, fun _ => ?_, fun hv => absurd hv (by simp [hval])⟩
      · simp [execute_command, hval, isExc]
      · simp [execute_command, hval]
  | true =>
      refine ⟨?_, fun hv => absurd hv (by simp [hval]), fun _ hrun => ?_⟩
      · cases run with
        | completed rc out err => simp [execute_command, hval, isExc]
        | timedOut => simp [execute_command, hval, isExc]
        | spawnFailure msg => simp [execute_command, hval, isExc]
      · subst hrun
        exact ⟨"Steam ROM Manager timed out after ", "s", by simp [execute_command, hval]⟩

/-- Witness for execute_command_error_spec: a missing tool path makes
execute_command raise before any process is spawned. -/
theorem execute_command_error_spec_witness :
    isExc (execute_command ⟨"C:\\tools\\srm.exe", 120⟩ ⟨false, false, none⟩ true
        (RunOutcome.completed 0 "" "") "add").result = true ∧
    (execute_command ⟨"C:\\tools\\srm.exe", 120⟩ ⟨false, false, none⟩ true
        (RunOutcome.completed 0 "" "") "add").spawned = false :=
  ⟨(execute_command_error_spec ⟨"C:\\tools\\srm.exe", 120⟩ ⟨false, false, none⟩ true
      (RunOutcome.completed 0 "" "")).1.mpr (Or.inl (by decide)),
   (execute_command_error_spec ⟨"C:\\tools\\srm.exe", 120⟩ ⟨false, false, none⟩ true
      (RunOutcome.completed 0 "" "")).2.1 (by decide)⟩

/-- Stepping lemma for the discovery fallback loop: an inspected process that
does not satisfy both truthiness guards is passed over and the loop continues. -/
theorem steamExeFallback_skip (i : ProcInfo) (h : returnsExe i = false)
    (rest : ProcTable) :
    steamExeFallback (Except.ok i :: rest) = steamExeFallback rest := by
  rcases i with ⟨name, exe⟩
  unfold returnsExe at h
  simp only [steamExeFallback]
  by_cases hg : (truthy name && (lowerStr (name.getD "") == "steam.exe")) = true
  · rw [if_pos hg]
    rw [hg, Bool.true_and] at h
    rcases exe with _ | e
    · rfl
    · have he : (e == "") = true := by
        unfold truthy at h
        simpa using h
      simp [he]
  · rw [if_neg hg]

/-- The fallback loop returns none as soon as an entry raises, regardless of
what the remaining entries would have yielded. -/
theorem steamExeFallback_abort (pre : List ProcInfo) (e : PsErr) (rest : ProcTable) :
    (∀ i ∈ pre, returnsExe i = false) →
    steamExeFallback (pre.map Except.ok ++ Except.error e :: rest) = none := by
  induction pre with
  | nil => intro _; rfl
  | cons i t ih =>
      intro hpre
      have h1 : steamExeFallback (Except.ok i :: (t.map Except.ok ++ Except.error e :: rest))
          = steamExeFallback (t.map Except.ok ++ Except.error e :: rest) :=
        steamExeFallback_skip i (hpre i (List.mem_cons_self i t)) _
      exact h1.trans (ih (fun j hj => hpre j (List.mem_cons_of_mem i hj)))

/-- C10: in find_steam_executable's fallback, a tolerated psutil exception
raised mid-iteration aborts the whole loop — the result is none for every
possible continuation of the process list, so the remaining entries are never
inspected — whereas the process enumerator _get_steam_processes skips the
failing entry and continues with the rest. -/
theorem find_steam_fallback_aborts (pre : List ProcInfo)
    (hpre : ∀ i ∈ pre, returnsExe i = false) (e : PsErr) (rest : ProcTable) :
    steamExeFallback (pre.map Except.ok ++ Except.error e :: rest) = none ∧
    get_steam_processes (Except.error e :: rest) = get_steam_processes rest :=
  ⟨steamExeFallback_abort pre e rest hpre, rfl⟩

/-- Witness for find_steam_fallback_aborts: an access-denied entry hides a
matching steam.exe entry that comes after it, while the enumerator would skip
the same failing entry. -/
theorem find_steam_fallback_aborts_witness :
    (∀ i ∈ [(⟨some "explorer.exe", some "C:\\Windows\\explorer.exe"⟩ : ProcInfo)],
        returnsExe i = false) ∧
    (steamExeFallback
        ([(⟨some "explorer.exe", some "C:\\Windows\\explorer.exe"⟩ : ProcInfo)].map
            Except.ok ++
          Except.error PsErr.accessDenied ::
            [Except.ok (⟨some "steam.exe", some "C:\\Steam\\steam.exe"⟩ : ProcInfo)]) =
        none ∧
      get_steam_processes (Except.error PsErr.accessDenied ::
          [Except.ok (⟨some "steam.exe", some "C:\\Steam\\steam.exe"⟩ : ProcInfo)]) =
        get_steam_processes
          [Except.ok (⟨some "steam.exe", some "C:\\Steam\\steam.exe"⟩ : ProcInfo)]) :=
  ⟨by decide, find_steam_fallback_aborts _ (by decide) _ _⟩

/-- In every branch of the run body, start_steam is never invoked. -/
theorem automationCore_no_relaunch (shutdown : Except PyExc (Bool × String))
    (verifyRunning : Bool) (exec : Except PyExc (Bool × String)) :
    (automationCore shutdown verifyRunning exec).start_steam_invoked = false := by
  rcases shutdown with e | v
  · rfl
  · cases verifyRunning with
    | true => rfl
    | false =>
        rcases exec with e2 | p
        · rfl
        · rcases p with ⟨b, s⟩
          cases b with
          | true => rfl
          | false => rfl

/-- C1: the code never performs the relaunch the claim requires.  First, no run
of automation_process ever invokes start_steam — the function has no call site
in the repository.  Second, at the very input where the claim promises a
successful run ending in a relaunch (restart configured true, Steam observed
running at shutdown so was_running_before_shutdown is recorded true, valid tool
path, tool exiting 0), the run in fact ends Failed: find_steam_executable
raises AttributeError because Constants.COMMON_STEAM_EXECUTABLE_PATHS does not
exist, and the top-level handler maps the run to Failed. -/
theorem start_steam_never_invoked :
    (∀ (cfg : AppConfig) (m : SteamManager) (r : SRMRunner) (env : RunEnv),
        ((automation_process cfg m r env).1).start_steam_invoked = false) ∧
    ((automation_process ⟨true⟩ ⟨30, false, none⟩ ⟨"C:\\srm\\srm.exe", 120⟩
          failingRunEnv).1).statusTrace.getLast? = some ProcessStatus.failed ∧
    ((automation_process ⟨true⟩ ⟨30, false, none⟩ ⟨"C:\\srm\\srm.exe", 120⟩
          failingRunEnv).2).was_running_before_shutdown = true := by
  refine ⟨fun cfg m r env => automationCore_no_relaunch _ _ _, ?_, ?_⟩
  · decide
  · decide

/-- Every sleep interval of the wait loop is at least 0.5 s. -/
theorem waitInterval_lb (n : Nat) : 1/2 ≤ waitInterval n := by
  induction n with
  | zero => norm_num [waitInterval]
  | succ n ih =>
      unfold waitInterval
      refine le_min (by linarith) (by norm_num)

/-- Every sleep interval of the wait loop is at most 3 s. -/
theorem waitInterval_ub (n : Nat) : waitInterval n ≤ 3 := by
  cases n with
  | zero => norm_num [waitInterval]
  | succ n => unfold waitInterval; exact min_le_right _ _

/-- Sleep intervals are positive. -/
theorem waitInterval_pos (n : Nat) : 0 < waitInterval n :=
  lt_of_lt_of_le (by norm_num) (waitInterval_lb n)

/-- Unfolding equation of the wait loop at zero fuel. -/
theorem waitLoop_zero (running : Nat → Bool) (maxWait total wait : ℚ) (n : Nat) :
    waitLoop running maxWait total wait n 0 =
      if total < maxWait then none else some (false, total) := rfl

/-- Unfolding equation of the wait loop at positive fuel. -/
theorem waitLoop_succ (running : Nat → Bool) (maxWait total wait : ℚ) (n fuel : Nat) :
    waitLoop running maxWait total wait n (fuel + 1) =
      if total < maxWait then
        if running n = false then some (true, total)
        else waitLoop running maxWait (total + wait) (min (wait * (3/2)) 3) (n + 1) fuel
      else some (false, total) := rfl

/-- Accumulated sleep time is monotone in the iteration index. -/
theorem waitedBefore_mono : Monotone waitedBefore := by
  apply monotone_nat_of_le_succ
  intro n
  have h := waitInterval_pos n
  show waitedBefore n ≤ waitedBefore n + waitInterval n
  linarith

/-- Accumulated sleep time before poll n is at least n/2 seconds. -/
theorem waitedBefore_lb (n : Nat) : (n : ℚ) / 2 ≤ waitedBefore n := by
  induction n with
  | zero => norm_num [waitedBefore]
  | succ n ih =>
      have := waitInterval_lb n
      unfold waitedBefore
      push_cast
      linarith

/-- If the target is running at every poll, the loop exits by budget exhaustion
with accumulated time in [maxWait, maxWait + 3), provided the fuel covers the
remaining budget (each iteration adds at least 0.5 s). -/
theorem waitLoop_all_running (running : Nat → Bool) (maxWait : ℚ)
    (hrun : ∀ n, running n = true) :
    ∀ (fuel : Nat) (total wait : ℚ) (n : Nat),
      1/2 ≤ wait → wait ≤ 3 → total < maxWait + wait →
      2 * (maxWait - total) ≤ (fuel : ℚ) →
      ∃ tot, waitLoop running maxWait total wait n fuel = some (false, tot) ∧
        maxWait ≤ tot ∧ tot < maxWait + 3 := by
  intro fuel
  induction fuel with
  | zero =>
      intro total wait n h1 h3 hlt hfuel
      have hge : maxWait ≤ total := by
        push_cast at hfuel
        linarith
      refine ⟨total, ?_, hge, by linarith⟩
      rw [waitLoop_zero, if_neg (not_lt.mpr hge)]
  | succ fuel ih =>
      intro total wait n h1 h3 hlt hfuel
      by_cases hcond : total < maxWait
      · have step : waitLoop running maxWait total wait n (fuel + 1) =
            waitLoop running maxWait (total + wait) (min (wait * (3/2)) 3) (n + 1) fuel := by
          rw [waitLoop_succ, if_pos hcond, if_neg (by simp [hrun n])]
        rw [step]
        have hwait : wait ≤ min (wait * (3/2)) 3 := le_min (by linarith) h3
        apply ih
        · exact le_min (by linarith) (by norm_num)
        · exact min_le_right _ _
        · linarith
        · push_cast at hfuel ⊢
          linarith
      · have hge : maxWait ≤ total := not_lt.mp hcond
        refine ⟨total, ?_, hge, by linarith⟩
        rw [waitLoop_succ, if_neg hcond]

/-- If the poll at iteration n is the first to report not-running and the budget
is not yet exhausted there, the loop returns true with the accumulated time of
that iteration. -/
theorem waitLoop_finds (running : Nat → Bool) (maxWait : ℚ) (n : Nat)
    (hn : running n = false) (hlt : waitedBefore n < maxWait) :
    ∀ (fuel k : Nat), k ≤ n → (∀ m, k ≤ m → m < n → running m = true) →
      n - k < fuel →
      waitLoop running maxWait (waitedBefore k) (waitInterval k) k fuel =
        some (true, waitedBefore n) := by
  intro fuel
  induction fuel with
  | zero => intro k _ _ hf; omega
  | succ fuel ih =>
      intro k hk hmid hf
      have hklt : waitedBefore k < maxWait :=
        lt_of_le_of_lt (waitedBefore_mono hk) hlt
      rcases Nat.lt_or_ge k n with hkn | hkn
      · have hrk : running k = true := hmid k le_rfl hkn
        rw [waitLoop_succ, if_pos hklt, if_neg (by simp [hrk])]
        have e1 : waitedBefore k + waitInterval k = waitedBefore (k + 1) := rfl
        have e2 : min (waitInterval k * (3/2)) 3 = waitInterval (k + 1) := rfl
        rw [e1, e2]
        exact ih (k + 1) hkn (fun m hm1 hm2 => hmid m (Nat.le_of_succ_le hm1) hm2)
          (by omega)
      · have hkn2 : k = n := le_antisymm hk hkn
        subst hkn2
        rw [waitLoop_succ, if_pos hklt, if_pos hn]

/-- C3: for every positive timeout T, if is_running() reports true at every
poll, wait_for_closure returns false with accumulated sleep time at least T and
strictly below T + 3 (the intervals being the 0.5 s, times-1.5, capped-at-3
sequence of waitInterval); and if the poll at some reached iteration n reports
false first, it returns true (having slept waitedBefore n < T). -/
theorem wait_for_closure_spec (T : ℚ) (running : Nat → Bool) (hT : 0 < T) :
    ((∀ n, running n = true) →
        ∃ total, wait_for_closure running T = some (false, total) ∧
          T ≤ total ∧ total < T + 3) ∧
    (∀ n, running n = false → (∀ m, m < n → running m = true) →
        waitedBefore n < T →
        wait_for_closure running T = some (true, waitedBefore n)) := by
  constructor
  · intro hrun
    have hfuel : 2 * (T - 0) ≤ ((2 * Nat.ceil T + 1 : Nat) : ℚ) := by
      have := Nat.le_ceil T
      push_cast
      linarith
    obtain ⟨tot, heq, hl, hu⟩ := waitLoop_all_running running T hrun
      (2 * Nat.ceil T + 1) 0 (1/2) 0 le_rfl (by norm_num) (by linarith) hfuel
    exact ⟨tot, heq, hl, hu⟩
  · intro n hn hprev hlt
    have hlow : (n : ℚ) / 2 ≤ waitedBefore n := waitedBefore_lb n
    have hceil : T ≤ (Nat.ceil T : ℚ) := Nat.le_ceil T
    have hnq : (n : ℚ) < 2 * (Nat.ceil T : ℚ) := by linarith
    have hnn : n < 2 * Nat.ceil T := by exact_mod_cast hnq
    have hf : n - 0 < 2 * Nat.ceil T + 1 := by omega
    exact waitLoop_finds running T n hn hlt (2 * Nat.ceil T + 1) 0 (Nat.zero_le n)
      (fun m _ hm => hprev m hm) hf

/-- Witness for wait_for_closure_spec at T = 2 with a target that never stops:
the loop sleeps 0.5 + 0.75 + 1.125 = 2.375 s and returns false. -/
theorem wait_for_closure_spec_witness :
    (0 : ℚ) < 2 ∧
    (((∀ n, (fun _ : Nat => true) n = true) →
        ∃ total, wait_for_closure (fun _ : Nat => true) 2 = some (false, total) ∧
          2 ≤ total ∧ total < 2 + 3) ∧
      (∀ n, (fun _ : Nat => true) n = false → (∀ m, m < n → (fun _ : Nat => true) m = true) →
        waitedBefore n < 2 →
        wait_for_closure (fun _ : Nat => true) 2 = some (true, waitedBefore n))) :=
  ⟨by norm_num, wait_for_closure_spec 2 (fun _ : Nat => true) (by norm_num)⟩

end SRMAuto
